import Mathlib

/-!
Verification of the websocket connection service (`src/services/websocket.rs`).

The service connects to a server, registers four transport handlers
(onopen, onmessage, onclose, onerror), decodes inbound frames into
application messages through a user-supplied converter, reports status
transitions through a user-supplied notifier, and returns a cancellable
handle used to send outbound data and close the connection.

Shallow embedding: the Rust closures become Lean functions; the statements
inside each registered JS handler become explicit action lists interpreted
by a small step function over the drop-state of the two callbacks; Rust
code paths that abort become `none` results.
-/

namespace Websocket

/-- Status of a websocket connection, used for status notification
(the `WebSocketStatus` enum of the source). -/
inductive WebSocketStatus where
  | Opened
  | Closed
deriving DecidableEq, Repr

/-- Type of restorable inbound payloads from the format module of this
repository: a Rust `Result` whose success side carries the raw string, as
pinned by the source line `let data = Ok(s)` feeding `OUT::from(data)`. -/
abbrev Restorable : Type := Except Unit String

/-- Type of storable outbound payloads from the format module of this
repository: an optional raw string, as pinned by the source line
`if let Some(body) = data.into()`. -/
abbrev Storable : Type := Option String

/-- A handle to control the current websocket connection: the source struct
`WebSocketHandle(Option<Value>)`, wrapping at most one live transport
reference. `V` stands for the opaque JS `Value`. -/
structure WebSocketHandle (V : Type) where
  val : Option V
deriving DecidableEq, Repr

/-- Fire-and-forget instructions the handle issues to the transport:
`handle.socket.close()` and `handle.socket.send(body)`. -/
inductive TransportCmd (V : Type) where
  | closeSocket (socket : V)
  | sendData (socket : V) (body : String)
deriving DecidableEq, Repr

/-- The user-supplied pieces captured by the closures built in `connect`:
the converter `F : OUT -> MSG`, the conversion `OUT: From<Restorable>`,
and the notifier `N : WebSocketStatus -> MSG`. -/
structure CallbackEnv (OUT MSG : Type) where
  converter : OUT → MSG
  from_restorable : Restorable → OUT
  notification : WebSocketStatus → MSG

/-- The message callback built in `connect`:
`let data = Ok(s); let out = OUT::from(data); let msg = converter(out); tx.send(msg)`.
It produces the one message enqueued for the raw payload `s`. -/
def msg_callback {OUT MSG : Type} (env : CallbackEnv OUT MSG) (s : String) : MSG :=
  env.converter (env.from_restorable (Except.ok s))

/-- The status-code match inside the status callback of `connect`:
code 1 yields `Opened`, code 0 yields `Closed`, and any other code hits
the panic arm, modelled as `none`. -/
def decode_status_code (code : Nat) : Option WebSocketStatus :=
  match code with
  | 1 => some WebSocketStatus.Opened
  | 0 => some WebSocketStatus.Closed
  | _ => none

/-- The status callback built in `connect`: decode the code (or abort),
then enqueue `notification(code)`. -/
def notify_callback {OUT MSG : Type} (env : CallbackEnv OUT MSG) (code : Nat) :
    Option MSG :=
  (decode_status_code code).map env.notification

/-- Primitive statements the registered JS handlers execute: invoke the
message callback on a payload, invoke the status callback on a code, or
drop (release) one of the two callbacks. -/
inductive Action where
  | invokeCallback (payload : String)
  | invokeNotify (code : Nat)
  | dropCallback
  | dropNotify
deriving DecidableEq, Repr

/-- Which of the two exported closures have been dropped so far. -/
structure SocketState where
  callbackDropped : Bool
  notifyDropped : Bool
deriving DecidableEq, Repr

/-- One step of a JS handler. Invoking or dropping an already-dropped
closure is a fault, as is the panic arm of the status callback; both are
modelled as `none`. A successful step returns the new drop-state and the
messages enqueued onto the dispatcher. -/
def runAction {OUT MSG : Type} (env : CallbackEnv OUT MSG) (st : SocketState) :
    Action → Option (SocketState × List MSG)
  | Action.invokeCallback s =>
    if st.callbackDropped then none else some (st, [msg_callback env s])
  | Action.invokeNotify code =>
    if st.notifyDropped then none
    else (notify_callback env code).map (fun m => (st, [m]))
  | Action.dropCallback =>
    if st.callbackDropped then none
    else some ({ st with callbackDropped := true }, [])
  | Action.dropNotify =>
    if st.notifyDropped then none
    else some ({ st with notifyDropped := true }, [])

/-- Run the statements of one handler in order, concatenating the messages
they enqueue. -/
def runActions {OUT MSG : Type} (env : CallbackEnv OUT MSG) (st : SocketState) :
    List Action → Option (SocketState × List MSG)
  | [] => some (st, [])
  | a :: rest =>
    match runAction env st a with
    | none => none
    | some (st1, out1) =>
      match runActions env st1 rest with
      | none => none
      | some (st2, out2) => some (st2, out1 ++ out2)

/-- The result of `WebSocketService::connect`: the returned handle plus the
four handlers registered on the socket, each as the list of statements its
JS body executes. -/
structure Connection (V : Type) where
  handle : WebSocketHandle V
  onopen : List Action
  onclose : List Action
  onerror : List Action
  onmessage : String → List Action

/-- Embedding of `WebSocketService::connect`: create the socket (the
transport returns the opaque reference `socket` for `url`), register the
four handlers exactly as the JS block writes them, and return
`WebSocketHandle(Some(handle))`. -/
def connect {V OUT MSG : Type} (socket : V) (url : String)
    (env : CallbackEnv OUT MSG) : Connection V :=
  let _ := url
  let _ := env
  { handle := ⟨some socket⟩
  , onopen := [Action.invokeNotify 1]
  , onclose := [Action.dropCallback, Action.invokeNotify 0, Action.dropNotify]
  , onerror := []
  , onmessage := fun s => [Action.invokeCallback s] }

/-- Events the transport can fire on one connection. -/
inductive TransportEvent where
  | openEvt
  | message (payload : String)
  | closeEvt
  | errorEvt
deriving DecidableEq, Repr

/-- The handler a connection runs for each transport event. -/
def Connection.handlerFor {V : Type} (c : Connection V) :
    TransportEvent → List Action
  | TransportEvent.openEvt => c.onopen
  | TransportEvent.message s => c.onmessage s
  | TransportEvent.closeEvt => c.onclose
  | TransportEvent.errorEvt => c.onerror

/-- Run a sequence of transport events against the registered handlers,
concatenating the messages enqueued onto the dispatcher. -/
def runEvents {V OUT MSG : Type} (env : CallbackEnv OUT MSG) (c : Connection V)
    (st : SocketState) : List TransportEvent → Option (SocketState × List MSG)
  | [] => some (st, [])
  | e :: rest =>
    match runActions env st (c.handlerFor e) with
    | none => none
    | some (st1, out1) =>
      match runEvents env c st1 rest with
      | none => none
      | some (st2, out2) => some (st2, out1 ++ out2)

/-- Embedding of `WebSocketHandle::send`: on a released handle the code
panics (`none`); on a live handle the payload is converted into a
`Storable` and, when present, forwarded unchanged to the transport. -/
def WebSocketHandle.send {V IN : Type} (into_storable : IN → Storable)
    (h : WebSocketHandle V) (data : IN) :
    Option (WebSocketHandle V × List (TransportCmd V)) :=
  match h.val with
  | some socket =>
    match into_storable data with
    | some body => some (h, [TransportCmd.sendData socket body])
    | none => some (h, [])
  | none => none

/-- Embedding of `Task::cancel` for `WebSocketHandle`:
`self.0.take().expect("tried to close websocket twice")` then
`handle.socket.close()`; the expect on an empty handle is `none`. -/
def WebSocketHandle.cancel {V : Type} (h : WebSocketHandle V) :
    Option (WebSocketHandle V × List (TransportCmd V)) :=
  match h.val with
  | some socket => some (⟨none⟩, [TransportCmd.closeSocket socket])
  | none => none

/-- A concrete message type used to evaluate the development on concrete
inputs, in the shape of the scenario of the testable-properties section. -/
inductive DemoMsg where
  | data (s : String)
  | status (st : WebSocketStatus)
deriving DecidableEq, Repr

/-- A concrete callback environment over `DemoMsg` with `OUT := String`. -/
def demoEnv : CallbackEnv String DemoMsg :=
  { converter := DemoMsg.data
  , from_restorable := fun r => match r with
      | Except.ok s => s
      | Except.error _ => ""
  , notification := DemoMsg.status }

/-- A concrete connection built by `connect` for the demo environment. -/
def demoConn : Connection Nat := connect 0 "wss://example/socket" demoEnv

/-- Helper: processing any run of message events followed by the close
event, starting from the fresh state, enqueues exactly the decoded
messages followed by one `Closed` notification and drops both callbacks. -/
theorem runEvents_messages_close {V OUT MSG : Type} (env : CallbackEnv OUT MSG)
    (socket : V) (url : String) (ms : List String) :
    runEvents env (connect socket url env) ⟨false, false⟩
      (ms.map TransportEvent.message ++ [TransportEvent.closeEvt]) =
    some (⟨true, true⟩,
      ms.map (msg_callback env) ++ [env.notification WebSocketStatus.Closed]) := by
  induction ms with
  | nil => rfl
  | cons m rest ih =>
    have h1 : runActions env ⟨false, false⟩
        ((connect socket url env).handlerFor (TransportEvent.message m)) =
        some (⟨false, false⟩, [msg_callback env m]) := rfl
    simp only [List.map_cons, List.cons_append, runEvents, h1, ih,
      List.singleton_append, List.append_eq, List.nil_append]

/-- Claim C1: for the event sequence open, message(m1), ..., message(mn),
close on one connection, the messages enqueued onto the dispatcher are
exactly notifier(Opened), decoder(m1), ..., decoder(mn), notifier(Closed),
in order, with no duplicates and no drops. -/
theorem connect_event_stream_exact {V OUT MSG : Type} (env : CallbackEnv OUT MSG)
    (socket : V) (url : String) (ms : List String) :
    runEvents env (connect socket url env) ⟨false, false⟩
      (TransportEvent.openEvt ::
        (ms.map TransportEvent.message ++ [TransportEvent.closeEvt])) =
    some (⟨true, true⟩,
      env.notification WebSocketStatus.Opened ::
        (ms.map (msg_callback env) ++
          [env.notification WebSocketStatus.Closed])) := by
  have hopen : runActions env ⟨false, false⟩
      ((connect socket url env).handlerFor TransportEvent.openEvt) =
      some (⟨false, false⟩, [env.notification WebSocketStatus.Opened]) := rfl
  simp only [runEvents, hopen, runEvents_messages_close, List.singleton_append]

/-- Claim C2 counterexample: when the transport fires the error event, the
registered error handler enqueues nothing and releases nothing — in
particular it does not enqueue one `Closed` status message. -/
theorem error_event_cex :
    runEvents demoEnv demoConn ⟨false, false⟩ [TransportEvent.errorEvt] =
      some (⟨false, false⟩, ([] : List DemoMsg)) ∧
    ((some (⟨false, false⟩, ([] : List DemoMsg)) :
        Option (SocketState × List DemoMsg)) ≠
      some (⟨true, true⟩, [DemoMsg.status WebSocketStatus.Closed])) := by
  exact ⟨rfl, by decide⟩

/-- Claim C2 amended: the error handler registered by `connect` is empty,
so an error event enqueues no message and releases no callback; the
`Closed` status message and the callback-release sequence happen only when
the transport itself fires the close event after the failure, and a
transport failure is never surfaced as a distinct error type. -/
theorem error_event_noop {V OUT MSG : Type} (env : CallbackEnv OUT MSG)
    (socket : V) (url : String) (st : SocketState) :
    (connect socket url env).onerror = [] ∧
    runEvents env (connect socket url env) st [TransportEvent.errorEvt] =
      some (st, ([] : List MSG)) ∧
    runEvents env (connect socket url env) ⟨false, false⟩
      [TransportEvent.errorEvt, TransportEvent.closeEvt] =
      some (⟨true, true⟩, [env.notification WebSocketStatus.Closed]) := by
  refine ⟨rfl, ?_, rfl⟩
  simp [runEvents, runActions, connect, Connection.handlerFor]

/-- Claim C3: the status callback maps code 1 to `Opened`, code 0 to
`Closed`, and aborts on every other code; no code is silently ignored or
misclassified. -/
theorem notify_callback_closed_switch {OUT MSG : Type}
    (env : CallbackEnv OUT MSG) :
    notify_callback env 1 = some (env.notification WebSocketStatus.Opened) ∧
    notify_callback env 0 = some (env.notification WebSocketStatus.Closed) ∧
    ∀ c : Nat, c ≠ 0 → c ≠ 1 → notify_callback env c = none := by
  refine ⟨rfl, rfl, ?_⟩
  intro c h0 h1
  match c, h0, h1 with
  | 0, h0, _ => exact absurd rfl h0
  | 1, _, h1 => exact absurd rfl h1
  | n + 2, _, _ => rfl

/-- Witness for claim C3 at the concrete code 7. -/
theorem notify_callback_closed_switch_witness :
    notify_callback demoEnv 7 = none :=
  (notify_callback_closed_switch demoEnv).2.2 7 (by decide) (by decide)

/-- Claim C4: cancelling a live handle releases it and issues exactly one
close instruction to the transport; cancelling the resulting released
handle aborts rather than silently doing nothing. -/
theorem cancel_once_then_fatal {V : Type} (v : V) :
    WebSocketHandle.cancel (⟨some v⟩ : WebSocketHandle V) =
      some (⟨none⟩, [TransportCmd.closeSocket v]) ∧
    WebSocketHandle.cancel (⟨none⟩ : WebSocketHandle V) = none :=
  ⟨rfl, rfl⟩

/-- Claim C5: sending on a released handle aborts; sending on a live handle
whose payload converts to `Some body` forwards exactly that body to the
transport send primitive exactly once. -/
theorem send_contract {V IN : Type} (into_storable : IN → Storable)
    (v : V) (data : IN) (body : String) :
    (WebSocketHandle.send into_storable (⟨none⟩ : WebSocketHandle V) data
      = none) ∧
    (into_storable data = some body →
      WebSocketHandle.send into_storable (⟨some v⟩ : WebSocketHandle V) data =
        some (⟨some v⟩, [TransportCmd.sendData v body])) := by
  constructor
  · rfl
  · intro h
    simp [WebSocketHandle.send, h]

/-- Witness for claim C5: the released handle aborts and the live handle
forwards the payload "ping" once. -/
theorem send_contract_witness :
    WebSocketHandle.send (fun s : String => some s)
      (⟨none⟩ : WebSocketHandle Nat) "ping" = none ∧
    WebSocketHandle.send (fun s : String => some s)
      (⟨some 0⟩ : WebSocketHandle Nat) "ping" =
      some (⟨some 0⟩, [TransportCmd.sendData 0 "ping"]) :=
  ⟨(send_contract (fun s : String => some s) (0 : Nat) "ping" "ping").1,
   (send_contract (fun s : String => some s) (0 : Nat) "ping" "ping").2 rfl⟩

/-- Claim C6: the close handler performs, in order, exactly: release the
message callback, invoke the status callback with code 0 (the closed
code), release the status callback; and the open handler invokes the
status callback with code 1 (the opened code). -/
theorem close_release_sequence {V OUT MSG : Type} (env : CallbackEnv OUT MSG)
    (socket : V) (url : String) :
    (connect socket url env).onclose =
      [Action.dropCallback, Action.invokeNotify 0, Action.dropNotify] ∧
    (connect socket url env).onopen = [Action.invokeNotify 1] ∧
    decode_status_code 0 = some WebSocketStatus.Closed ∧
    decode_status_code 1 = some WebSocketStatus.Opened :=
  ⟨rfl, rfl, rfl, rfl⟩

/-- Claim C7: `connect` returns, for every address and callback
environment, a handle in the live state wrapping the transport reference;
the embedding of `connect` is a total function, so no error and no abort
path exists. -/
theorem connect_returns_live_handle {V OUT MSG : Type}
    (env : CallbackEnv OUT MSG) (socket : V) (url : String) :
    (connect socket url env).handle = ⟨some socket⟩ ∧
    ((connect socket url env).handle.val.isSome = true) :=
  ⟨rfl, rfl⟩

/-- Claim C8: sending on a live handle whose payload converts to no payload
transmits nothing, does not abort, and leaves the handle live; in general a
send on a live handle never changes the handle state. -/
theorem send_none_payload_noop {V IN : Type} (into_storable : IN → Storable)
    (v : V) (data : IN) :
    (into_storable data = none →
      WebSocketHandle.send into_storable (⟨some v⟩ : WebSocketHandle V) data =
        some (⟨some v⟩, ([] : List (TransportCmd V)))) ∧
    ∀ d : IN,
      Option.map Prod.fst
          (WebSocketHandle.send into_storable (⟨some v⟩ : WebSocketHandle V) d) =
        some (⟨some v⟩ : WebSocketHandle V) := by
  constructor
  · intro h
    simp [WebSocketHandle.send, h]
  · intro d
    cases hd : into_storable d <;> simp [WebSocketHandle.send, hd]

/-- Witness for claim C8 with a conversion that always yields no payload. -/
theorem send_none_payload_noop_witness :
    WebSocketHandle.send (fun _ : String => (none : Storable))
      (⟨some 0⟩ : WebSocketHandle Nat) "x" =
      some (⟨some 0⟩, ([] : List (TransportCmd Nat))) :=
  (send_none_payload_noop (fun _ : String => (none : Storable)) (0 : Nat) "x").1 rfl

/-- Claim C9: the decoding path is deterministic — invoking the message
handler with the same raw payload from any two states in which the message
callback is still alive enqueues the same single application message,
`msg_callback env s`, both times. -/
theorem decoder_deterministic {V OUT MSG : Type} (env : CallbackEnv OUT MSG)
    (socket : V) (url : String) (s : String) (st st' : SocketState)
    (h : st.callbackDropped = false) (h' : st'.callbackDropped = false) :
    runActions env st ((connect socket url env).onmessage s) =
      some (st, [msg_callback env s]) ∧
    runActions env st' ((connect socket url env).onmessage s) =
      some (st', [msg_callback env s]) := by
  constructor <;> simp [connect, runActions, runAction, h, h']

/-- Witness for claim C9 at the payload "hello" from the fresh state. -/
theorem decoder_deterministic_witness :
    runActions demoEnv ⟨false, false⟩ (demoConn.onmessage "hello") =
      some (⟨false, false⟩, [msg_callback demoEnv "hello"]) :=
  (decoder_deterministic demoEnv 0 "wss://example/socket" "hello"
    ⟨false, false⟩ ⟨false, false⟩ rfl rfl).1

/-- Claim C10: for every inbound frame the raw payload reaches the decoder
input conversion wrapped as the success value `Ok(payload)`, never as an
error value, and exactly one message — the converter applied to the
converted payload — is enqueued per frame. -/
theorem inbound_frame_ok_wrapped {V OUT MSG : Type} (env : CallbackEnv OUT MSG)
    (socket : V) (url : String) (s : String) (st : SocketState)
    (h : st.callbackDropped = false) :
    runActions env st ((connect socket url env).onmessage s) =
      some (st, [env.converter (env.from_restorable (Except.ok s))]) := by
  simp [connect, runActions, runAction, msg_callback, h]

/-- Witness for claim C10 at the payload "hi" from the fresh state. -/
theorem inbound_frame_ok_wrapped_witness :
    runActions demoEnv ⟨false, false⟩ (demoConn.onmessage "hi") =
      some (⟨false, false⟩,
        [demoEnv.converter (demoEnv.from_restorable (Except.ok "hi"))]) :=
  inbound_frame_ok_wrapped demoEnv 0 "wss://example/socket" "hi"
    ⟨false, false⟩ rfl

end Websocket
